import Mathlib

/-!
Shallow embedding of trackpad-rs (src/lib.rs), a Rust bridge over the macOS
MultitouchSupport framework.

Modelling conventions:
* `MTDeviceRef` is an opaque native pointer; it is modelled as a natural
  number identifier (`DevRef`).
* Native behaviour that the Rust code merely observes (the value the
  post-start `MTDeviceIsRunning` query reports, a device's builtin flag and
  family id) is supplied by explicit oracle parameters (`NativeEnv`,
  constructor arguments).
* Native calls issued by the Rust code are recorded as an explicit trace
  (`List NativeCall`), so that statements such as "no native start call is
  made" or "the release call happens exactly once" are expressible.
* `f32`/`f64` fields undergo no arithmetic on the code paths under study
  (they are copied verbatim through the callback bridge), so they are
  modelled by their bit patterns as natural numbers.  The one exception,
  `sensor_surface_dimensions`, divides by an exact power of ten; it is
  modelled over `Rat`, which is exact at the inputs considered.
* The user handler registered by `listen` is type-erased on the Rust side;
  it is modelled by a numeric identifier plus, at each bridge invocation, a
  flag saying whether the handler panics on that invocation.
-/

/-- `MTDeviceRef` (`*mut c_void`, src/lib.rs:301) modelled as an opaque identifier. -/
abbrev DevRef := Nat

/-- The type of Multitouch device (src/lib.rs:31). -/
inductive DeviceType where
  | InternalTrackpad
  | ExternalTrackpad
  | MagicMouse
  | Unknown (familyId : Int)
  deriving DecidableEq, Repr

/-- Just a point (x, y) (src/lib.rs:228); `f32` fields as bit patterns. -/
structure MTPoint where
  x : Nat
  y : Nat
  deriving DecidableEq, Repr

/-- Current touch position and velocity (src/lib.rs:236). -/
structure MTVector where
  pos : MTPoint
  vel : MTPoint
  deriving DecidableEq, Repr

/-- The state of an individual touch (src/lib.rs:246). -/
inductive MTTouchState where
  | NotTracking
  | StartInRange
  | HoverInRange
  | MakeTouch
  | Touching
  | BreakTouch
  | LingerInRange
  | OutOfRange
  deriving DecidableEq, Repr

/-- One finger's sample for one frame (src/lib.rs:268), field for field in
source order; `f32`/`f64` fields as bit patterns. -/
structure MTTouch where
  frame : Int
  timestamp : Nat
  identifier : Int
  state : MTTouchState
  finger_id : Int
  hand_id : Int
  normalized : MTVector
  z_total : Nat
  unknown3 : Int
  angle : Nat
  major_axis : Nat
  minor_axis : Nat
  absolute : MTVector
  unknown4 : Int
  unknown5 : Int
  z_density : Nat
  deriving DecidableEq, Repr

/-- One native call issued by the Rust code, named after the extern
declarations of src/lib.rs:6-27. -/
inductive NativeCall where
  | MTRegisterContactFrameCallbackWithRefcon (dev : DevRef) (handler : Nat)
  | MTDeviceStart (dev : DevRef)
  | MTDeviceStop (dev : DevRef)
  | MTDeviceRelease (dev : DevRef)
  | MTDeviceIsRunning (dev : DevRef)
  deriving DecidableEq, Repr

/-- The Rust `MTDevice` struct (src/lib.rs:43): cached device type, cached
running flag, and the native resource identity. -/
structure MTDevice where
  device_type : DeviceType
  is_running : Bool
  inner : DevRef
  deriving DecidableEq, Repr

/-- A device handle together with the native subsystem's per-device callback
slot (the context pointer last registered for it, if any). -/
structure World where
  dev : MTDevice
  slot : Option Nat
  deriving DecidableEq, Repr

/-- Oracle for native behaviour the Rust code observes: what the
`MTDeviceIsRunning` query reports right after `MTDeviceStart`. -/
structure NativeEnv where
  startResult : Bool
  deriving DecidableEq, Repr

/-- `MTDevice::inner_device_type` (src/lib.rs:149-163) as a function of the
native device attributes it queries (`MTDeviceIsBuiltIn`,
`MTDeviceGetFamilyID`).  `[112, 113].contains(&family_id)` is list
membership; `(128..=130).contains(&family_id)` is the closed-range test. -/
def inner_device_type (builtin : Bool) (family_id : Int) : DeviceType :=
  if builtin then
    DeviceType.InternalTrackpad
  else if family_id ∈ ([112, 113] : List Int) then
    DeviceType.MagicMouse
  else if 128 ≤ family_id ∧ family_id ≤ 130 then
    DeviceType.ExternalTrackpad
  else
    DeviceType.Unknown family_id

/-- The device classification exactly as the specification words it (spec
section 4.1, first match wins): builtin always yields `InternalTrackpad`;
otherwise family id 112 or 113 yields `MagicMouse`; otherwise family id in
[128, 130] yields `ExternalTrackpad`; otherwise `Unknown` with the id
preserved exactly. -/
def classifySpec (builtin : Bool) (familyId : Int) : DeviceType :=
  if builtin then
    DeviceType.InternalTrackpad
  else if familyId = 112 ∨ familyId = 113 then
    DeviceType.MagicMouse
  else if 128 ≤ familyId ∧ familyId ≤ 130 then
    DeviceType.ExternalTrackpad
  else
    DeviceType.Unknown familyId

/-- `MTDevice::new` (src/lib.rs:87-93): builds a handle for a native device
with the given attributes; the running flag starts `false`. -/
def MTDevice.new (dev : DevRef) (builtin : Bool) (family_id : Int) : MTDevice :=
  { is_running := false
    device_type := inner_device_type builtin family_id
    inner := dev }

/-- `<MTDevice as Default>::default` (src/lib.rs:58-69): wraps the native
default device; the running flag starts `false`. -/
def MTDevice.default (dev : DevRef) (builtin : Bool) (family_id : Int) : MTDevice :=
  { device_type := inner_device_type builtin family_id
    is_running := false
    inner := dev }

/-- `MTDevice::devices` (src/lib.rs:73-85): one handle per entry of the
native device list, each built by `MTDevice::new`.  The native list is
modelled as the list of each device's (ref, builtin, familyId) attributes. -/
def MTDevice.devices (attrs : List (DevRef × Bool × Int)) : List MTDevice :=
  attrs.map (fun a => MTDevice.new a.1 a.2.1 a.2.2)

/-- `MTDevice::start` (src/lib.rs:95-99): issues the native start call, then
sets the cached running flag to what the native `MTDeviceIsRunning` query
reports; always returns `Ok(())`. -/
def MTDevice.start (env : NativeEnv) (w : World) :
    World × Except String Unit × List NativeCall :=
  ({ w with dev := { w.dev with is_running := env.startResult } },
   Except.ok (),
   [NativeCall.MTDeviceStart w.dev.inner, NativeCall.MTDeviceIsRunning w.dev.inner])

/-- `MTDevice::listen` (src/lib.rs:102-123): if the cached running flag is
clear, registers the boxed handler as the native context pointer and starts
the device; otherwise bails with "already listening" before any native
call. -/
def MTDevice.listen (env : NativeEnv) (w : World) (handler : Nat) :
    World × Except String Unit × List NativeCall :=
  if !w.dev.is_running then
    let w1 : World := { w with slot := some handler }
    let s := MTDevice.start env w1
    (s.1, s.2.1,
     NativeCall.MTRegisterContactFrameCallbackWithRefcon w.dev.inner handler :: s.2.2)
  else
    (w, Except.error "already listening", [])

/-- `MTDevice::is_running` (src/lib.rs:193-195): returns the cached field;
no native call is issued. -/
def World.is_running (w : World) : Bool × List NativeCall :=
  (w.dev.is_running, [])

/-- `MTDevice::stop` (src/lib.rs:205-208): issues the native stop call and
sets the cached running flag to `false` unconditionally. -/
def MTDevice.stop (w : World) : World × List NativeCall :=
  ({ w with dev := { w.dev with is_running := false } },
   [NativeCall.MTDeviceStop w.dev.inner])

/-- `<MTDevice as Drop>::drop` (src/lib.rs:218-223): releases the native
resource; nothing else.  Returns the trace of native calls it issues. -/
def MTDevice.dropTrace (d : MTDevice) : List NativeCall :=
  [NativeCall.MTDeviceRelease d.inner]

/-- `MTDevice::stop_and_drop` (src/lib.rs:212-215): stops, then the handle
goes out of scope and `drop` runs.  Returns the full trace of native calls
issued over this lifetime-ending path. -/
def MTDevice.stop_and_drop (w : World) : List NativeCall :=
  (MTDevice.stop w).2 ++ MTDevice.dropTrace (MTDevice.stop w).1.dev

/-- The scale factor the implementation divides by in
`sensor_surface_dimensions` (src/lib.rs:189). -/
def surfaceDimensionScale : Int := 1000

/-- The scale factor documented on the extern declaration of
`MTDeviceGetSensorSurfaceDimensions` (src/lib.rs:23: "Divide x and y by 100
to get the value in centimeters"). -/
def documentedSurfaceDimensionScale : Int := 100

/-- `MTDevice::sensor_surface_dimensions` (src/lib.rs:186-190) as a function
of the two native integers the device reports: divides each by 1000.0.  The
division is by an exact power of ten, modelled exactly over `Rat`. -/
def sensor_surface_dimensions (x y : Int) : Rat × Rat :=
  ((x : Rat) / 1000, (y : Rat) / 1000)

/-- Rust `fingers as usize` (src/lib.rs:321): an `i32` cast to a 64-bit
unsigned integer wraps modulo 2^64. -/
def intAsUsize (i : Int) : Nat :=
  (i % (2 : Int) ^ 64).toNat

/-- `std::slice::from_raw_parts(data, count)` (src/lib.rs:321): the view of
`count` contiguous records starting at the record pointer.  Native memory at
the pointer is modelled as a function from index to record; the view reads
exactly the records at indices `0, ..., count - 1`, in that order. -/
def sliceFromRawParts (mem : Nat → MTTouch) (count : Nat) : List MTTouch :=
  (List.range count).map mem

/-- Observable outcome of one callback-bridge invocation: the sentinel
returned to the native caller, the list of user-handler invocations
performed (each with the exact argument tuple it received), and how many
records were read through the record pointer. -/
structure BridgeOutcome where
  ret : Int
  handlerCalls : List (DevRef × List MTTouch × Int × Nat × Int)
  recordsRead : Nat
  deriving DecidableEq, Repr

/-- The extern-"C" `callback` bridge (src/lib.rs:312-336).  Builds the slice
from the record pointer and count; if it is nonempty, recovers the boxed
user handler from the context pointer and invokes it once with
(device, slice, fingers, timestamp, frame); `catch_unwind` maps a normal
completion to `0` and a caught panic to `-1`.  `handlerPanics` is the oracle
for whether the user handler panics on this invocation; `st` is the
device-handle state, which the bridge never touches (it only receives the
raw `MTDeviceRef`), threaded through to make that observable. -/
def callback (device : DevRef) (mem : Nat → MTTouch) (fingers : Int)
    (timestamp : Nat) (frame : Int) (handlerPanics : Bool) (st : MTDevice) :
    BridgeOutcome × MTDevice :=
  let data := sliceFromRawParts mem (intAsUsize fingers)
  if data.isEmpty then
    ({ ret := 0, handlerCalls := [], recordsRead := data.length }, st)
  else
    ({ ret := if handlerPanics then -1 else 0,
       handlerCalls := [(device, data, fingers, timestamp, frame)],
       recordsRead := data.length }, st)

/-- Does a `MTDeviceStop` for `dev` occur strictly before the first
`MTDeviceRelease` for `dev` in the trace? -/
def stopPrecedesRelease (dev : DevRef) (t : List NativeCall) : Bool :=
  (t.takeWhile (fun c => !(c == NativeCall.MTDeviceRelease dev))).contains
    (NativeCall.MTDeviceStop dev)

/-- Number of native release calls (for any device) in a trace. -/
def releaseCount (t : List NativeCall) : Nat :=
  t.countP (fun c => match c with
    | NativeCall.MTDeviceRelease _ => true
    | _ => false)

/-- Every handle in the list has its cached running flag clear. -/
def allNotRunning (l : List MTDevice) : Bool :=
  l.all (fun d => !d.is_running)

/-- A concrete touch record used by witnesses. -/
def sampleTouch : MTTouch :=
  { frame := 1
    timestamp := 2
    identifier := 3
    state := MTTouchState.Touching
    finger_id := 0
    hand_id := 1
    normalized := { pos := { x := 1, y := 2 }, vel := { x := 3, y := 4 } }
    z_total := 5
    unknown3 := 0
    angle := 6
    major_axis := 7
    minor_axis := 8
    absolute := { pos := { x := 9, y := 10 }, vel := { x := 11, y := 12 } }
    unknown4 := 0
    unknown5 := 0
    z_density := 13 }

/-- Concrete native record memory used by witnesses: record `i` carries
frame number `i`, all other fields from `sampleTouch`. -/
def sampleMem : Nat → MTTouch :=
  fun i => { sampleTouch with frame := Int.ofNat i }

/-- A concrete handle whose cached running flag is set. -/
def runningDevice : MTDevice :=
  { device_type := DeviceType.InternalTrackpad, is_running := true, inner := 0 }

/-- A concrete handle whose cached running flag is clear. -/
def stoppedDevice : MTDevice :=
  { device_type := DeviceType.MagicMouse, is_running := false, inner := 1 }

/-- A concrete world around `runningDevice`, handler 7 registered. -/
def runningWorld : World :=
  { dev := runningDevice, slot := some 7 }

/-- A concrete world around `stoppedDevice`, no handler registered. -/
def stoppedWorld : World :=
  { dev := stoppedDevice, slot := none }

/-- Helper: an `i32` in `[1, 2^31)` cast to `usize` is its natural value. -/
theorem intAsUsize_eq_toNat (i : Int) (h0 : 0 ≤ i) (h1 : i < 2 ^ 64) :
    intAsUsize i = i.toNat := by
  unfold intAsUsize
  rw [Int.emod_eq_of_lt h0 h1]

/-- Helper: the slice view of `count` records has length `count`. -/
theorem sliceFromRawParts_length (mem : Nat → MTTouch) (count : Nat) :
    (sliceFromRawParts mem count).length = count := by
  simp [sliceFromRawParts]

/-- Helper: unfolding of the bridge when the count is nonzero. -/
theorem callback_eq_of_ne_zero (device : DevRef) (mem : Nat → MTTouch) (fingers : Int)
    (ts : Nat) (fr : Int) (p : Bool) (st : MTDevice)
    (h : intAsUsize fingers ≠ 0) :
    callback device mem fingers ts fr p st =
      ({ ret := if p then -1 else 0,
         handlerCalls := [(device, sliceFromRawParts mem (intAsUsize fingers), fingers, ts, fr)],
         recordsRead := intAsUsize fingers }, st) := by
  have hne : (sliceFromRawParts mem (intAsUsize fingers)).isEmpty = false := by
    cases hc : intAsUsize fingers with
    | zero => exact absurd hc h
    | succ n => simp [sliceFromRawParts, List.range_succ]
  simp [callback, hne, sliceFromRawParts_length]

/-- Claim C1: a bridge invocation on which the user handler completes
normally returns the success sentinel 0; one on which the user handler
panics has the panic caught at the bridge boundary and returns the failure
sentinel -1; the device handle's state is unchanged in both cases. -/
theorem callback_panic_containment_sentinels (device : DevRef) (mem : Nat → MTTouch)
    (fingers : Int) (ts : Nat) (fr : Int) (st : MTDevice)
    (hpos : 0 < fingers) (hlt : fingers < 2 ^ 31) :
    (callback device mem fingers ts fr false st).1.ret = 0
    ∧ (callback device mem fingers ts fr true st).1.ret = -1
    ∧ (callback device mem fingers ts fr true st).2 = st
    ∧ (callback device mem fingers ts fr false st).2 = st := by
  have hn : intAsUsize fingers = fingers.toNat :=
    intAsUsize_eq_toNat fingers (le_of_lt hpos) (by omega)
  have hz : intAsUsize fingers ≠ 0 := by omega
  rw [callback_eq_of_ne_zero device mem fingers ts fr false st hz,
    callback_eq_of_ne_zero device mem fingers ts fr true st hz]
  simp

/-- Witness for C1 at device 0, one record, concrete memory and handle. -/
theorem callback_panic_containment_sentinels_witness :
    0 < (1 : Int) ∧ (1 : Int) < 2 ^ 31
    ∧ ((callback 0 sampleMem 1 2 3 false stoppedDevice).1.ret = 0
       ∧ (callback 0 sampleMem 1 2 3 true stoppedDevice).1.ret = -1
       ∧ (callback 0 sampleMem 1 2 3 true stoppedDevice).2 = stoppedDevice
       ∧ (callback 0 sampleMem 1 2 3 false stoppedDevice).2 = stoppedDevice) :=
  ⟨by decide, by decide,
   callback_panic_containment_sentinels 0 sampleMem 1 2 3 stoppedDevice
     (by decide) (by decide)⟩

/-- Claim C2: a bridge invocation with finger count zero invokes the user
handler zero times, reads no record through the record pointer, and returns
the success sentinel 0 — whether or not the handler would have panicked, and
for any device-handle state, which is returned unchanged. -/
theorem callback_zero_count_noop (device : DevRef) (mem : Nat → MTTouch)
    (ts : Nat) (fr : Int) (p : Bool) (st : MTDevice) :
    callback device mem 0 ts fr p st
      = ({ ret := 0, handlerCalls := [], recordsRead := 0 }, st) := by
  simp [callback, sliceFromRawParts, intAsUsize]

/-- Claim C3: the device classifier embedded from the source equals, at
every attribute tuple (builtin, familyId), the pure classification the
specification describes: builtin always internal; else 112/113 Magic Mouse;
else [128, 130] external trackpad; else Unknown with the id preserved. -/
theorem inner_device_type_matches_spec (b : Bool) (i : Int) :
    inner_device_type b i = classifySpec b i := by
  cases b <;> simp [inner_device_type, classifySpec]

/-- Claim C4: `listen` on a handle whose running flag is set returns the
"already listening" error, leaves the whole state (running flag, cached
device type, native identity, registered handler slot) unchanged, and
issues no native call at all — no callback registration, no start. -/
theorem listen_already_running_no_side_effect (env : NativeEnv) (w : World)
    (handler : Nat) (hr : w.dev.is_running = true) :
    (MTDevice.listen env w handler).1 = w
    ∧ (MTDevice.listen env w handler).2.1 = Except.error "already listening"
    ∧ (MTDevice.listen env w handler).2.2 = [] := by
  simp [MTDevice.listen, hr]

/-- Witness for C4 on a concrete running world with handler 7 registered. -/
theorem listen_already_running_no_side_effect_witness :
    runningWorld.dev.is_running = true
    ∧ ((MTDevice.listen { startResult := true } runningWorld 9).1 = runningWorld
       ∧ (MTDevice.listen { startResult := true } runningWorld 9).2.1
           = Except.error "already listening"
       ∧ (MTDevice.listen { startResult := true } runningWorld 9).2.2 = []) :=
  ⟨by decide,
   listen_already_running_no_side_effect { startResult := true } runningWorld 9 rfl⟩

/-- Claim C5: a bridge invocation with finger count `n > 0` invokes the user
handler exactly once, with the slice of exactly the `n` records read
contiguously from the native memory in native order (element `i` of the
slice is literally the record at index `i`), along with the original device,
count, timestamp and frame arguments. -/
theorem callback_delivers_batch_once (device : DevRef) (mem : Nat → MTTouch)
    (fingers : Int) (ts : Nat) (fr : Int) (p : Bool) (st : MTDevice)
    (hpos : 0 < fingers) (hlt : fingers < 2 ^ 31) :
    (callback device mem fingers ts fr p st).1.handlerCalls
      = [(device, (List.range fingers.toNat).map mem, fingers, ts, fr)]
    ∧ ((List.range fingers.toNat).map mem).length = fingers.toNat
    ∧ ((callback device mem fingers ts fr p st).1.handlerCalls).length = 1 := by
  have hn : intAsUsize fingers = fingers.toNat :=
    intAsUsize_eq_toNat fingers (le_of_lt hpos) (by omega)
  have hz : intAsUsize fingers ≠ 0 := by omega
  rw [callback_eq_of_ne_zero device mem fingers ts fr p st hz]
  simp [hn, sliceFromRawParts]

/-- Witness for C5: three records delivered in one call, in order. -/
theorem callback_delivers_batch_once_witness :
    0 < (3 : Int) ∧ (3 : Int) < 2 ^ 31
    ∧ ((callback 5 sampleMem 3 2 4 false stoppedDevice).1.handlerCalls
         = [(5, (List.range (3 : Int).toNat).map sampleMem, 3, 2, 4)]
       ∧ ((List.range (3 : Int).toNat).map sampleMem).length = (3 : Int).toNat
       ∧ ((callback 5 sampleMem 3 2 4 false stoppedDevice).1.handlerCalls).length = 1) :=
  ⟨by decide, by decide,
   callback_delivers_batch_once 5 sampleMem 3 2 4 false stoppedDevice
     (by decide) (by decide)⟩

/-- Claim C6 (code bug): `sensor_surface_dimensions` divides both native
coordinates by the single fixed factor 1000, but the factor documented on
the native call's extern declaration is 100 ("Divide x and y by 100 to get
the value in centimeters").  At native input (1000, 500) the code yields
(1.0, 0.5) where the documented factor yields (10.0, 5.0). -/
theorem sensor_surface_scale_bug (x y : Int) :
    sensor_surface_dimensions x y
      = ((x : Rat) / (surfaceDimensionScale : Rat), (y : Rat) / (surfaceDimensionScale : Rat))
    ∧ surfaceDimensionScale ≠ documentedSurfaceDimensionScale
    ∧ sensor_surface_dimensions 1000 500 = (1, 1 / 2)
    ∧ ((1000 : Rat) / (documentedSurfaceDimensionScale : Rat),
        (500 : Rat) / (documentedSurfaceDimensionScale : Rat)) = (10, 5) := by
  refine ⟨?_, by decide, ?_, ?_⟩
  · norm_num [sensor_surface_dimensions, surfaceDimensionScale]
  · norm_num [sensor_surface_dimensions]
  · norm_num [documentedSurfaceDimensionScale]

/-- Counterexample to claim C7 as stated: a handle whose running flag is set
and whose lifetime ends by ordinary end of scope (the `Drop` impl) has the
native release call issued with no stop call before it. -/
theorem drop_releases_running_device_without_stop :
    runningDevice.is_running = true
    ∧ MTDevice.dropTrace runningDevice = [NativeCall.MTDeviceRelease 0]
    ∧ stopPrecedesRelease 0 (MTDevice.dropTrace runningDevice) = false := by
  decide

/-- Claim C7 as amended: on either lifetime-ending path, the native release
call is issued exactly once; `stop_and_drop` always stops before releasing,
but the ordinary end-of-scope `Drop` path releases without stopping first. -/
theorem release_exactly_once_per_lifetime (w : World) :
    releaseCount (MTDevice.stop_and_drop w) = 1
    ∧ stopPrecedesRelease w.dev.inner (MTDevice.stop_and_drop w) = true
    ∧ releaseCount (MTDevice.dropTrace w.dev) = 1
    ∧ stopPrecedesRelease w.dev.inner (MTDevice.dropTrace w.dev) = false := by
  refine ⟨?_, ?_, ?_, ?_⟩ <;>
    simp [MTDevice.stop_and_drop, MTDevice.stop, MTDevice.dropTrace,
      releaseCount, stopPrecedesRelease]

/-- Claim C8: a `listen` call on a not-running handle succeeds, and the
resulting running flag equals what the native post-start running query
reports — in particular it is `false` when the native query reports
not-running. -/
theorem listen_running_flag_from_native_query (env : NativeEnv) (w : World)
    (handler : Nat) (hnr : w.dev.is_running = false) :
    (MTDevice.listen env w handler).2.1 = Except.ok ()
    ∧ (MTDevice.listen env w handler).1.dev.is_running = env.startResult := by
  simp [MTDevice.listen, MTDevice.start, hnr]

/-- Witness for C8 with a native environment reporting not-running after
start: the successful listen leaves the flag `false`. -/
theorem listen_running_flag_from_native_query_witness :
    stoppedWorld.dev.is_running = false
    ∧ ((MTDevice.listen { startResult := false } stoppedWorld 4).2.1 = Except.ok ()
       ∧ (MTDevice.listen { startResult := false } stoppedWorld 4).1.dev.is_running
           = NativeEnv.startResult { startResult := false }) :=
  ⟨by decide,
   listen_running_flag_from_native_query { startResult := false } stoppedWorld 4 rfl⟩

/-- Claim C9: `stop` on a handle whose running flag is already clear leaves
the whole observable state (flag, cached device type, native identity,
handler slot) unchanged; and after a `stop` of any handle, a subsequent
`listen` succeeds. -/
theorem stop_idempotent_and_restartable (env : NativeEnv) (w w2 : World)
    (handler : Nat) (hnr : w.dev.is_running = false) :
    (MTDevice.stop w).1 = w
    ∧ (MTDevice.listen env (MTDevice.stop w2).1 handler).2.1 = Except.ok () := by
  constructor
  · cases w with
    | mk d s =>
      cases d
      simp_all [MTDevice.stop]
  · simp [MTDevice.listen, MTDevice.stop, MTDevice.start]

/-- Witness for C9: stopping an already-stopped concrete world changes
nothing, and listen succeeds after stopping a running concrete world. -/
theorem stop_idempotent_and_restartable_witness :
    stoppedWorld.dev.is_running = false
    ∧ ((MTDevice.stop stoppedWorld).1 = stoppedWorld
       ∧ (MTDevice.listen { startResult := true } (MTDevice.stop runningWorld).1 4).2.1
           = Except.ok ()) :=
  ⟨by decide,
   stop_idempotent_and_restartable { startResult := true } stoppedWorld runningWorld 4 rfl⟩

/-- Claim C10: the running flag is a cached field with asymmetric updates:
`new`, `devices` and the default constructor initialize it to `false`;
`listen` sets it from the native post-start query; `stop` sets it to `false`
unconditionally, issuing only the native stop command (no running query);
and the `is_running` getter returns the cached field with no native call. -/
theorem running_flag_cached_asymmetric (dev : DevRef) (b : Bool) (fid : Int)
    (attrs : List (DevRef × Bool × Int)) (env : NativeEnv) (w u : World)
    (handler : Nat) (hnr : w.dev.is_running = false) :
    (MTDevice.new dev b fid).is_running = false
    ∧ (MTDevice.default dev b fid).is_running = false
    ∧ allNotRunning (MTDevice.devices attrs) = true
    ∧ (MTDevice.listen env w handler).1.dev.is_running = env.startResult
    ∧ (MTDevice.stop u).1.dev.is_running = false
    ∧ (MTDevice.stop u).2 = [NativeCall.MTDeviceStop u.dev.inner]
    ∧ World.is_running u = (u.dev.is_running, []) := by
  refine ⟨rfl, rfl, ?_, ?_, rfl, rfl, rfl⟩
  · simp only [allNotRunning, List.all_eq_true]
    intro d hd
    simp only [MTDevice.devices, List.mem_map] at hd
    obtain ⟨a, _, rfl⟩ := hd
    rfl
  · simp [MTDevice.listen, MTDevice.start, hnr]

/-- Witness for C10 at concrete attributes, worlds and environment. -/
theorem running_flag_cached_asymmetric_witness :
    stoppedWorld.dev.is_running = false
    ∧ ((MTDevice.new 2 true 108).is_running = false
       ∧ (MTDevice.default 3 false 112).is_running = false
       ∧ allNotRunning (MTDevice.devices [(0, true, 108), (1, false, 129)]) = true
       ∧ (MTDevice.listen { startResult := true } stoppedWorld 4).1.dev.is_running
           = NativeEnv.startResult { startResult := true }
       ∧ (MTDevice.stop runningWorld).1.dev.is_running = false
       ∧ (MTDevice.stop runningWorld).2
           = [NativeCall.MTDeviceStop runningWorld.dev.inner]
       ∧ World.is_running runningWorld = (runningWorld.dev.is_running, [])) :=
  ⟨by decide,
   running_flag_cached_asymmetric 2 true 108 [(0, true, 108), (1, false, 129)]
     { startResult := true } stoppedWorld runningWorld 4 rfl⟩
